import Mathlib

set_option autoImplicit false

/-!
Verification development for the Rithmic order API client
(`src/rithmic/interfaces/order/order_api.py`).

The Python source is shallowly embedded: decoded protobuf responses become
structures, the request/response loops become structural recursion over the
list of inbound frames, the asyncio receive loop becomes a step function over
an explicit event list, and exceptions become `Except`/`Option` results.
Components of the repository that are not part of the given source tree
(`status_manager.py`, `order_types.py`, the base API) are modelled from the
specification and are marked as such in their doc comments.
-/

/- ===================================================================
   Streaming-list reads: `_list_accounts` / `_list_trade_routes`
   (order_api.py lines 152-220)
   =================================================================== -/

/-- Decoded `ResponseAccountList` frame (template 303 family): the fields the
Python loop reads from the parsed protobuf message. -/
structure ResponseAccountList where
  template_id : Nat
  rq_handler_rp_code : List String
  rp_code : List String
  fcm_id : String
  ib_id : String
  account_id : String
  account_name : String
  deriving Repr, DecidableEq

/-- The record dict built for each account frame in `_list_accounts`. -/
structure AccountListRecord where
  template_id : Nat
  rq_handler_rp_code : List String
  rp_code : List String
  fcm_id : String
  ib_id : String
  account_id : String
  account_name : String
  deriving Repr, DecidableEq

/-- The `record = dict(...)` construction in `_list_accounts`. -/
def mkAccountRecord (rp : ResponseAccountList) : AccountListRecord :=
  { template_id := rp.template_id, rq_handler_rp_code := rp.rq_handler_rp_code
    rp_code := rp.rp_code, fcm_id := rp.fcm_id, ib_id := rp.ib_id
    account_id := rp.account_id, account_name := rp.account_name }

/-- The `while rp_is_done == False` loop of `_list_accounts`: each inbound
frame is decoded and turned into a record; a frame with a non-empty `rp_code`
terminates the loop without being appended, any other frame is appended and
the loop continues.  `none` models the loop blocking forever because the
inbound frames ran out before a terminal frame arrived. -/
def list_accounts_loop : List ResponseAccountList → List AccountListRecord →
    Option (List AccountListRecord)
  | [], _ => none
  | rp :: rest, acc =>
    let record := mkAccountRecord rp
    if rp.rp_code.length > 0 then some acc
    else list_accounts_loop rest (acc ++ [record])

/-- `_list_accounts` restricted to its frame-consumption behaviour: the
request side is pure fire-and-forget and does not affect the result. -/
def list_accounts (frames : List ResponseAccountList) :
    Option (List AccountListRecord) :=
  list_accounts_loop frames []

/-- Decoded `ResponseTradeRoutes` frame: the fields read by
`_list_trade_routes`. -/
structure ResponseTradeRoutes where
  template_id : Nat
  rq_handler_rp_code : List String
  rp_code : List String
  fcm_id : String
  ib_id : String
  exchange : String
  trade_route : String
  status : String
  is_default : Bool
  deriving Repr, DecidableEq

/-- The record dict built for each trade-route frame in `_list_trade_routes`. -/
structure TradeRouteRecord where
  template_id : Nat
  rp_handler_code : List String
  rp_code : List String
  fcm_id : String
  ib_id : String
  exchange : String
  trade_route : String
  status : String
  is_default : Bool
  deriving Repr, DecidableEq

/-- The `record = dict(...)` construction in `_list_trade_routes`. -/
def mkTradeRouteRecord (rp : ResponseTradeRoutes) : TradeRouteRecord :=
  { template_id := rp.template_id, rp_handler_code := rp.rq_handler_rp_code
    rp_code := rp.rp_code, fcm_id := rp.fcm_id, ib_id := rp.ib_id
    exchange := rp.exchange, trade_route := rp.trade_route
    status := rp.status, is_default := rp.is_default }

/-- The `while rp_is_done == False` loop of `_list_trade_routes`, with the
same terminal-marker convention as `list_accounts_loop`. -/
def list_trade_routes_loop : List ResponseTradeRoutes → List TradeRouteRecord →
    Option (List TradeRouteRecord)
  | [], _ => none
  | rp :: rest, acc =>
    let record := mkTradeRouteRecord rp
    if rp.rp_code.length > 0 then some acc
    else list_trade_routes_loop rest (acc ++ [record])

/-- `_list_trade_routes` restricted to its frame-consumption behaviour. -/
def list_trade_routes (frames : List ResponseTradeRoutes) :
    Option (List TradeRouteRecord) :=
  list_trade_routes_loop frames []

/- ===================================================================
   Extended login info: `_get_login_info` (order_api.py lines 121-150)
   =================================================================== -/

/-- Decoded `ResponseLoginInfo`: the fields `_get_login_info` reads. -/
structure ResponseLoginInfo where
  template_id : Nat
  user_msg : List String
  rp_code : List String
  fcm_id : String
  ib_id : String
  user_type : Nat
  deriving Repr, DecidableEq

/-- The `USER_TYPE_MAP` class attribute; a key outside the map makes the
Python dict lookup fail, modelled by `none`. -/
def USER_TYPE_MAP : Nat → Option String
  | 0 => some "ADMIN"
  | 1 => some "FCM"
  | 2 => some "IB"
  | 3 => some "TRADER"
  | _ => none

/-- The details dict returned by `_get_login_info` on success. -/
structure LoginDetails where
  template_id : Nat
  user_msg : List String
  rp_code : List String
  fcm_id : String
  ib_id : String
  user_type : Nat
  user_type_string : String
  accounts : List AccountListRecord
  trade_routes : List TradeRouteRecord
  deriving Repr, DecidableEq

/-- Message of the `ConnectionError` raised by `_get_login_info`; the payload
after the fixed prose is the comma-joined `rp_code` sequence. -/
def loginInfoErrorMessage (joinedCodes : String) : String :=
  "Error Getting Details from Rithmic: " ++ joinedCodes

/-- The decision logic of `_get_login_info` once the `ResponseLoginInfo`
frame has been parsed.  The nested streaming-list reads are passed in as the
lists they would return.  `none` models a Python-level fault (indexing an
empty `rp_code`, or a `user_type` outside `USER_TYPE_MAP`); `Except.error`
carries the message of the raised `ConnectionError`.  The success test in the
source is `rp.rp_code[0] == '0'`: equality of the whole first element with
the one-character string "0". -/
def get_login_info (rp : ResponseLoginInfo) (accounts : List AccountListRecord)
    (trade_routes : List TradeRouteRecord) :
    Option (Except String LoginDetails) :=
  match rp.rp_code with
  | [] => none
  | c :: _ =>
    if c = "0" then
      match USER_TYPE_MAP rp.user_type with
      | none => none
      | some uts =>
        some (Except.ok
          { template_id := rp.template_id, user_msg := rp.user_msg
            rp_code := rp.rp_code, fcm_id := rp.fcm_id, ib_id := rp.ib_id
            user_type := rp.user_type, user_type_string := uts
            accounts := accounts, trade_routes := trade_routes })
    else
      some (Except.error
        (loginInfoErrorMessage (String.intercalate ", " rp.rp_code)))

/-- First character of the first response code, the quantity the spec claims
is the success discriminator. -/
def firstRpCodeLeadingChar (rp : ResponseLoginInfo) : Option Char :=
  match rp.rp_code with
  | [] => none
  | c :: _ => c.toList.head?

/- ===================================================================
   Theorems for the streaming-list reads (claim C4)
   =================================================================== -/

/-- Accumulator-generalized behaviour of the `_list_accounts` loop on a
stream of record frames followed by a terminal frame. -/
theorem list_accounts_loop_spec (recs : List ResponseAccountList)
    (term : ResponseAccountList) (rest : List ResponseAccountList)
    (hrec : ∀ r ∈ recs, r.rp_code = []) (hterm : term.rp_code ≠ []) :
    ∀ acc, list_accounts_loop (recs ++ term :: rest) acc =
      some (acc ++ recs.map mkAccountRecord) := by
  induction recs with
  | nil =>
    intro acc
    have hlen : term.rp_code.length > 0 := List.length_pos.mpr hterm
    simp [list_accounts_loop, hlen]
  | cons r rs ih =>
    intro acc
    have hr : r.rp_code = [] := hrec r (by simp)
    have hrs : ∀ x ∈ rs, x.rp_code = [] := fun x hx => hrec x (by simp [hx])
    simp [list_accounts_loop, hr, ih hrs]

/-- Accumulator-generalized behaviour of the `_list_trade_routes` loop. -/
theorem list_trade_routes_loop_spec (recs : List ResponseTradeRoutes)
    (term : ResponseTradeRoutes) (rest : List ResponseTradeRoutes)
    (hrec : ∀ r ∈ recs, r.rp_code = []) (hterm : term.rp_code ≠ []) :
    ∀ acc, list_trade_routes_loop (recs ++ term :: rest) acc =
      some (acc ++ recs.map mkTradeRouteRecord) := by
  induction recs with
  | nil =>
    intro acc
    have hlen : term.rp_code.length > 0 := List.length_pos.mpr hterm
    simp [list_trade_routes_loop, hlen]
  | cons r rs ih =>
    intro acc
    have hr : r.rp_code = [] := hrec r (by simp)
    have hrs : ∀ x ∈ rs, x.rp_code = [] := fun x hx => hrec x (by simp [hx])
    simp [list_trade_routes_loop, hr, ih hrs]

/-- C4: for both streaming-list requests (account list, trade routes), a
stream of K frames with empty response code followed by one frame with a
non-empty response code yields exactly the K record frames in arrival order,
the terminal frame is not included, and a terminal frame arriving first
yields the empty list. -/
theorem streaming_list_reads_records_then_terminal
    (recsA : List ResponseAccountList) (termA : ResponseAccountList)
    (restA : List ResponseAccountList)
    (recsT : List ResponseTradeRoutes) (termT : ResponseTradeRoutes)
    (restT : List ResponseTradeRoutes)
    (hA : ∀ r ∈ recsA, r.rp_code = []) (hTA : termA.rp_code ≠ [])
    (hT : ∀ r ∈ recsT, r.rp_code = []) (hTT : termT.rp_code ≠ []) :
    list_accounts (recsA ++ termA :: restA) = some (recsA.map mkAccountRecord)
    ∧ list_trade_routes (recsT ++ termT :: restT) =
        some (recsT.map mkTradeRouteRecord)
    ∧ list_accounts (termA :: restA) = some []
    ∧ list_trade_routes (termT :: restT) = some [] := by
  refine ⟨?_, ?_, ?_, ?_⟩
  · simpa using list_accounts_loop_spec recsA termA restA hA hTA []
  · simpa using list_trade_routes_loop_spec recsT termT restT hT hTT []
  · simpa using list_accounts_loop_spec [] termA restA (by simp) hTA []
  · simpa using list_trade_routes_loop_spec [] termT restT (by simp) hTT []

/-- Concrete account frame used in witnesses: a record frame. -/
def acctFrameRec : ResponseAccountList :=
  { template_id := 303, rq_handler_rp_code := [], rp_code := []
    fcm_id := "F", ib_id := "I", account_id := "A1", account_name := "Acct" }

/-- Concrete account frame used in witnesses: the terminal frame. -/
def acctFrameTerm : ResponseAccountList :=
  { template_id := 303, rq_handler_rp_code := [], rp_code := ["0"]
    fcm_id := "F", ib_id := "I", account_id := "", account_name := "" }

/-- Concrete trade-route frame used in witnesses: a record frame. -/
def routeFrameRec : ResponseTradeRoutes :=
  { template_id := 311, rq_handler_rp_code := [], rp_code := []
    fcm_id := "F", ib_id := "I", exchange := "CME", trade_route := "globex"
    status := "UP", is_default := true }

/-- Concrete trade-route frame used in witnesses: the terminal frame. -/
def routeFrameTerm : ResponseTradeRoutes :=
  { template_id := 311, rq_handler_rp_code := [], rp_code := ["0"]
    fcm_id := "F", ib_id := "I", exchange := "", trade_route := ""
    status := "", is_default := false }

/-- Witness for C4: two account record frames and one trade-route record
frame, each followed by a terminal frame, evaluated concretely. -/
theorem streaming_list_reads_records_then_terminal_witness :
    list_accounts [acctFrameRec, acctFrameRec, acctFrameTerm] =
      some [mkAccountRecord acctFrameRec, mkAccountRecord acctFrameRec]
    ∧ list_trade_routes [routeFrameRec, routeFrameTerm] =
        some [mkTradeRouteRecord routeFrameRec]
    ∧ list_accounts [acctFrameTerm] = some []
    ∧ list_trade_routes [routeFrameTerm] = some [] := by
  have h := streaming_list_reads_records_then_terminal
    [acctFrameRec, acctFrameRec] acctFrameTerm []
    [routeFrameRec] routeFrameTerm []
    (by decide) (by decide) (by decide) (by decide)
  simpa using h

/- ===================================================================
   Theorems for the login-info response code check (claim C5)
   =================================================================== -/

/-- Concrete login-info response whose first response code is "00": its
leading character is the success marker but the code's whole-string equality
test fails it. -/
def loginRespZeroZero : ResponseLoginInfo :=
  { template_id := 301, user_msg := [], rp_code := ["00"]
    fcm_id := "F", ib_id := "I", user_type := 3 }

/-- Counterexample for C5: a response whose first response-code element has
leading character '0' (so the claim requires a successful login) is rejected
by `_get_login_info`, because the source compares the whole first element
against the string "0". -/
theorem get_login_info_leading_char_counterexample :
    firstRpCodeLeadingChar loginRespZeroZero = some '0'
    ∧ get_login_info loginRespZeroZero [] [] =
        some (Except.error (loginInfoErrorMessage "00")) := by
  constructor
  · rfl
  · rfl

/-- C5 amended: the connect/login path fails, with an error whose detail is
the comma-joined response-code string, exactly when the first response-code
element is not the whole string "0"; when it is "0" (and the reported user
type is one the API's user-type table knows) the login succeeds and no such
error is raised. -/
theorem get_login_info_first_code_decides (rp : ResponseLoginInfo)
    (accounts : List AccountListRecord) (trade_routes : List TradeRouteRecord) :
    (∀ c rest, rp.rp_code = c :: rest → c ≠ "0" →
      get_login_info rp accounts trade_routes =
        some (Except.error
          (loginInfoErrorMessage (String.intercalate ", " rp.rp_code))))
    ∧ (∀ rest uts, rp.rp_code = "0" :: rest →
        USER_TYPE_MAP rp.user_type = some uts →
      get_login_info rp accounts trade_routes =
        some (Except.ok
          { template_id := rp.template_id, user_msg := rp.user_msg
            rp_code := rp.rp_code, fcm_id := rp.fcm_id, ib_id := rp.ib_id
            user_type := rp.user_type, user_type_string := uts
            accounts := accounts, trade_routes := trade_routes })) := by
  constructor
  · intro c rest hcode hc
    simp [get_login_info, hcode, hc]
  · intro rest uts hcode huts
    simp [get_login_info, hcode, huts]

/-- Concrete failing login-info response with `rp_code = ["7", "X"]`. -/
def loginRespSeven : ResponseLoginInfo :=
  { template_id := 301, user_msg := [], rp_code := ["7", "X"]
    fcm_id := "F", ib_id := "I", user_type := 3 }

/-- Concrete successful login-info response with `rp_code = ["0"]`. -/
def loginRespOk : ResponseLoginInfo :=
  { template_id := 301, user_msg := [], rp_code := ["0"]
    fcm_id := "F", ib_id := "I", user_type := 3 }

/-- Witness for the amended C5: the `["7", "X"]` response fails with the
joined code string "7, X" in the error detail, and the `["0"]` response
succeeds. -/
theorem get_login_info_first_code_decides_witness :
    get_login_info loginRespSeven [] [] =
      some (Except.error (loginInfoErrorMessage "7, X"))
    ∧ (get_login_info loginRespOk [] []).isSome = true
    ∧ (∀ e, get_login_info loginRespOk [] [] ≠ some (Except.error e)) := by
  have h1 := (get_login_info_first_code_decides loginRespSeven [] []).1
    "7" ["X"] rfl (by decide)
  have h2 := (get_login_info_first_code_decides loginRespOk [] []).2
    [] "TRADER" rfl rfl
  refine ⟨?_, ?_, ?_⟩
  · simpa using h1
  · simp [h2]
  · intro e
    simp [h2]

/- ===================================================================
   Order and bracket-order state
   (order_types.py / status_manager.py are not part of the given source
   tree; their record shapes are modelled from the specification and from
   the attribute accesses in order_api.py)
   =================================================================== -/

/-- Modelled from the spec: a child Order of a bracket (`order_types.py` is
not under src/).  The fields are exactly those order_api.py reads from a
stop-loss or take-profit child: caller-assigned `order_id`, broker-assigned
`basket_id` (unknown until acknowledgment), instrument codes, quantity and
`modify_count`.  Prices elsewhere are Python floats; they are carried here as
integers since the claims only store and compare them. -/
structure ChildOrder where
  order_id : String
  basket_id : Option String
  security_code : String
  exchange_code : String
  quantity : Nat
  modify_count : Nat
  deriving Repr, DecidableEq

/-- The history entry dict built by
`submit_amend_bracket_order_all_stop_loss_orders`:
`dict(modified_at=get_utc_now(), new_stop_loss=..., old_stop_loss=...)`. -/
structure StopAmendEntry where
  modified_at : Nat
  new_stop_loss : Int
  old_stop_loss : Int
  deriving Repr, DecidableEq

/-- Modelled from the spec: the BracketOrder record of `order_types.py` (not
under src/): a parent order with one group of stop-loss children and one of
take-profit children, the uniform stop-loss trigger price recorded on the
parent, the group-level amendment sequence counter, and the append-only
amendment history mapping sequence numbers to entries (a Python dict,
modelled as an association list in insertion order). -/
structure BracketOrder where
  order_id : String
  basket_id : Option String
  stop_loss_orders : List ChildOrder
  take_profit_orders : List ChildOrder
  stop_loss_trigger_price : Int
  take_profit_limit_price : Int
  all_stops_modified_count : Nat
  all_stops_modified : Bool
  all_stops_modified_history : List (Nat × StopAmendEntry)
  deriving Repr, DecidableEq

/-- Python dict assignment `history[key] = value` on the association-list
model: replace the entry if the key is present, otherwise append. -/
def historyInsert (h : List (Nat × StopAmendEntry)) (k : Nat)
    (v : StopAmendEntry) : List (Nat × StopAmendEntry) :=
  if k ∈ h.map Prod.fst then
    h.map (fun p => if p.1 = k then (k, v) else p)
  else h ++ [(k, v)]

/-- Modelled from the spec: `BracketOrder.update_stop_loss_trigger_price`
(`order_types.py`, not under src/) records the uniform new stop-loss value on
the parent. -/
def update_stop_loss_trigger_price (b : BracketOrder) (v : Int) :
    BracketOrder :=
  { b with stop_loss_trigger_price := v }

/-- The per-child modify request built by `_send_stop_loss_order_amendment`
(template 314, price type STOP_MARKET); the session account fields added by
`_add_account_info_to_request` are orthogonal to the claims and omitted. -/
structure StopAmendCmd where
  basket_id : Option String
  symbol : String
  exchange : String
  quantity : Nat
  trigger_price : Int
  deriving Repr, DecidableEq

/-- The `modify_map` built by the issue loop of
`submit_amend_bracket_order_all_stop_loss_orders`: each stop child's
`order_id` mapped to its issue-time `modify_count + 1`. -/
def modifyMapStops (b : BracketOrder) : List (String × Nat) :=
  b.stop_loss_orders.map (fun s => (s.order_id, s.modify_count + 1))

/-- The amendment commands scheduled by the issue loop: one
`_send_stop_loss_order_amendment` per stop child, carrying the child's
basket id, instrument and quantity and the uniform new trigger price. -/
def amend_all_stops_commands (b : BracketOrder) (stop_loss : Int) :
    List StopAmendCmd :=
  b.stop_loss_orders.map (fun s =>
    { basket_id := s.basket_id, symbol := s.security_code
      exchange := s.exchange_code, quantity := s.quantity
      trigger_price := stop_loss })

/-- The spin condition of the `while not complete` loop:
`all([stop.modify_count == modify_map[stop.order_id] for stop in ...])`.
A key missing from the map would be a Python `KeyError`; it is modelled as
the condition being false (it cannot arise while the children list keeps its
issue-time order ids). -/
def allStopsAtExpected (m : List (String × Nat)) (stops : List ChildOrder) :
    Bool :=
  stops.all (fun s =>
    match List.lookup s.order_id m with
    | some v => s.modify_count == v
    | none => false)

/-- The `while not complete` busy-wait itself.  The loop merely re-reads the
children, which only a concurrent notification handler can change, so it is
modelled over the sequence of child-list snapshots the successive iterations
observe, with explicit fuel: `none` means the loop is still spinning after
`fuel` iterations.  The source has no timeout parameter and no timeout
outcome. -/
def spin_all_stops (m : List (String × Nat)) :
    Nat → (Nat → List ChildOrder) → Option (List ChildOrder)
  | 0, _ => none
  | n + 1, snaps =>
    if allStopsAtExpected m (snaps 0) then some (snaps 0)
    else spin_all_stops m n (fun i => snaps (i + 1))

/-- The completion tail of `submit_amend_bracket_order_all_stop_loss_orders`:
with `finalStops` the children as last observed by the spin, set the
group-level counter to its issue-time value plus one, mark the group
modified, record the uniform new trigger price on the parent, and write one
history entry under the new counter value.  `current_stop_loss` was read at
entry, before any amendment was issued. -/
def complete_all_stops (b : BracketOrder) (finalStops : List ChildOrder)
    (stop_loss : Int) (now : Nat) : BracketOrder :=
  let current_stop_loss := b.stop_loss_trigger_price
  let next_modified_count := b.all_stops_modified_count + 1
  let b1 := { b with stop_loss_orders := finalStops
                     all_stops_modified_count := next_modified_count
                     all_stops_modified := true }
  let b2 := update_stop_loss_trigger_price b1 stop_loss
  let entry : StopAmendEntry :=
    { modified_at := now, new_stop_loss := stop_loss
      old_stop_loss := current_stop_loss }
  { b2 with all_stops_modified_history :=
      historyInsert b2.all_stops_modified_history next_modified_count entry }

/-- `submit_amend_bracket_order_all_stop_loss_orders` as a whole: the issued
commands, and — when the busy-wait exits within `fuel` observed snapshots —
the bracket state after the completion tail.  `none` in the second component
means the call is still blocked in the spin. -/
def submit_amend_bracket_order_all_stop_loss_orders (b : BracketOrder)
    (stop_loss : Int) (fuel : Nat) (snaps : Nat → List ChildOrder)
    (now : Nat) : List StopAmendCmd × Option BracketOrder :=
  (amend_all_stops_commands b stop_loss,
   match spin_all_stops (modifyMapStops b) fuel snaps with
   | none => none
   | some finalStops => some (complete_all_stops b finalStops stop_loss now))

/- ===================================================================
   Cancel operations (order_api.py lines 543-581)
   =================================================================== -/

/-- The `RequestCancelOrder` frame built by `_send_cancel_order` (template
316), reduced to the fields the claims are about. -/
structure CancelOrderCmd where
  template_id : Nat
  basket_id : Option String
  deriving Repr, DecidableEq

/-- The request constructed by `_send_cancel_order` for a basket id. -/
def send_cancel_order (basket_id : Option String) : CancelOrderCmd :=
  { template_id := 316, basket_id := basket_id }

/-- The `for order in parent_order.stop_loss_orders` loop of
`submit_cancel_bracket_order_all_children`: one cancel request scheduled per
iterated child. -/
def cancel_children_loop : List ChildOrder → List CancelOrderCmd
  | [] => []
  | o :: rest => send_cancel_order o.basket_id :: cancel_children_loop rest

/-- `submit_cancel_bracket_order_all_children` on the resolved parent
bracket: the source iterates only `parent_order.stop_loss_orders`. -/
def submit_cancel_bracket_order_all_children (b : BracketOrder) :
    List CancelOrderCmd :=
  cancel_children_loop b.stop_loss_orders

/-- Errors of the caller-facing cancel path. -/
inductive OrderLookupError
  | orderNotFound
  | basketIdNotYetAssigned
  deriving Repr, DecidableEq

/-- A stored order as far as `submit_cancel_order` reads it. -/
structure StoredOrder where
  order_id : String
  basket_id : Option String
  deriving Repr, DecidableEq

/-- Modelled from the spec: `StatusManager._get_order_by_order_id`
(`status_manager.py`, not under src/) resolves a caller-assigned order id to
the stored order and fails with `OrderNotFound` when the id is unknown. -/
def get_order_by_order_id (orders : List (String × StoredOrder))
    (order_id : String) : Except OrderLookupError StoredOrder :=
  match List.lookup order_id orders with
  | none => Except.error OrderLookupError.orderNotFound
  | some o => Except.ok o

/-- Modelled from the spec: reading `Order.basket_id` for a broker-facing
operation fails with `BasketIdNotYetAssigned` while the broker has not yet
acknowledged the order (`order_types.py`, not under src/). -/
def order_basket_id (o : StoredOrder) : Except OrderLookupError String :=
  match o.basket_id with
  | none => Except.error OrderLookupError.basketIdNotYetAssigned
  | some b => Except.ok b

/-- `submit_cancel_order`: resolve the stored order, read its basket id, and
schedule exactly one `_send_cancel_order` with it.  An error result means
the call raised before anything was scheduled: no frame reaches the wire. -/
def submit_cancel_order (orders : List (String × StoredOrder))
    (order_id : String) : Except OrderLookupError CancelOrderCmd := do
  let o ← get_order_by_order_id orders order_id
  let b ← order_basket_id o
  pure (send_cancel_order (some b))

/- ===================================================================
   Theorems for the bulk stop-loss amendment (claims C1 and C3)
   =================================================================== -/

/-- If no observed snapshot satisfies the spin condition, the busy-wait is
still spinning after any number of iterations. -/
theorem spin_all_stops_stuck (m : List (String × Nat)) :
    ∀ (fuel : Nat) (snaps : Nat → List ChildOrder),
      (∀ i, allStopsAtExpected m (snaps i) = false) →
      spin_all_stops m fuel snaps = none := by
  intro fuel
  induction fuel with
  | zero => intro snaps _; rfl
  | succ n ih =>
    intro snaps h
    simp only [spin_all_stops, h 0, if_neg Bool.false_ne_true]
    exact ih (fun i => snaps (i + 1)) (fun i => h (i + 1))

/-- A successful exit of the busy-wait exits on a snapshot satisfying the
spin condition. -/
theorem spin_all_stops_sound (m : List (String × Nat)) :
    ∀ (fuel : Nat) (snaps : Nat → List ChildOrder) (out : List ChildOrder),
      spin_all_stops m fuel snaps = some out →
      allStopsAtExpected m out = true := by
  intro fuel
  induction fuel with
  | zero => intro snaps out h; exact absurd h (by simp [spin_all_stops])
  | succ n ih =>
    intro snaps out h
    by_cases hc : allStopsAtExpected m (snaps 0) = true
    · simp only [spin_all_stops, hc, if_pos] at h
      cases h
      exact hc
    · simp only [spin_all_stops, hc, if_neg] at h
      exact ih (fun i => snaps (i + 1)) out h

/-- The single stop-loss child of the C1 scenario: never acknowledged, its
`modify_count` stays at its issue-time value. -/
def stuckStopChild : ChildOrder :=
  { order_id := "S1", basket_id := some "41", security_code := "ESZ4"
    exchange_code := "CME", quantity := 1, modify_count := 0 }

/-- The bracket order of the C1 scenario. -/
def stuckBracket : BracketOrder :=
  { order_id := "B1", basket_id := some "41"
    stop_loss_orders := [stuckStopChild], take_profit_orders := []
    stop_loss_trigger_price := 100, take_profit_limit_price := 110
    all_stops_modified_count := 0, all_stops_modified := false
    all_stops_modified_history := [] }

/-- C1: the bulk stop-loss amendment's completion wait is an unbounded
synchronous busy-poll, not a timed asynchronous wait.  On a bracket whose
single stop-loss child is never acknowledged (every observed snapshot keeps
`modify_count = 0`), the call is still spinning after every number of
iterations: it never terminates, accepts no caller-supplied timeout, and
never produces any timeout outcome such as `AmendmentTimeout` (the source has
no such path; the take-profit counterpart at order_api.py lines 793-802 has
the same shape). -/
theorem amend_all_stops_busy_wait_never_completes :
    ∀ fuel : Nat,
      (submit_amend_bracket_order_all_stop_loss_orders stuckBracket 95 fuel
        (fun _ => [stuckStopChild]) 0).2 = none := by
  intro fuel
  have h : ∀ i : Nat,
      allStopsAtExpected (modifyMapStops stuckBracket)
        ((fun _ => [stuckStopChild]) i) = false := by
    intro i
    show allStopsAtExpected (modifyMapStops stuckBracket) [stuckStopChild]
      = false
    decide
  simp only [submit_amend_bracket_order_all_stop_loss_orders]
  rw [spin_all_stops_stuck (modifyMapStops stuckBracket) fuel _ h]

/-- Association lookup of a child's order id in the issue-time modify map:
with pairwise distinct order ids it returns that child's issue-time
`modify_count + 1`. -/
theorem lookup_modify_map :
    ∀ (l : List ChildOrder),
      (l.map (fun s => s.order_id)).Nodup →
      ∀ (i : Nat) (hi : i < l.length),
        List.lookup l[i].order_id
            (l.map (fun s => (s.order_id, s.modify_count + 1)))
          = some (l[i].modify_count + 1) := by
  intro l
  induction l with
  | nil => intro _ i hi; exact absurd hi (by simp)
  | cons s rest ih =>
    intro hnd i hi
    rw [List.map_cons, List.nodup_cons] at hnd
    match i with
    | 0 => simp [List.lookup]
    | j + 1 =>
      have hj : j < rest.length := by simpa using hi
      have hmem : rest[j].order_id ∈ rest.map (fun s => s.order_id) :=
        List.mem_map.mpr ⟨rest[j], List.getElem_mem hj, rfl⟩
      have hne : (rest[j].order_id == s.order_id) = false := by
        rw [beq_eq_false_iff_ne]
        intro he
        exact hnd.1 (he ▸ hmem)
      simp only [List.getElem_cons_succ, List.map_cons, List.lookup, hne]
      exact ih hnd.2 j hj

/-- The history entry value written by the completion tail. -/
def stopEntry (now : Nat) (new old : Int) : StopAmendEntry :=
  { modified_at := now, new_stop_loss := new, old_stop_loss := old }

/-- C3: when the bulk stop-loss amendment completes, every stop-loss child's
`modify_count` equals the value recorded for it at issue time — its
issue-time count incremented by exactly 1 — and the completion tail records
the uniform new trigger price on the parent, increments the group-level
amendment sequence counter by exactly 1, and appends exactly one history
entry of timestamp, old value and new value keyed by the new counter value;
with the history keys being the consecutive sequence numbers 1..count, that
key is the previous maximum key plus 1. -/
theorem amend_all_stops_completion (b : BracketOrder)
    (finalStops : List ChildOrder) (stop_loss : Int) (now fuel : Nat)
    (snaps : Nat → List ChildOrder)
    (hspin : spin_all_stops (modifyMapStops b) fuel snaps = some finalStops)
    (hids : finalStops.map (fun s => s.order_id)
      = b.stop_loss_orders.map (fun s => s.order_id))
    (hnd : (b.stop_loss_orders.map (fun s => s.order_id)).Nodup)
    (hkeys : b.all_stops_modified_history.map Prod.fst
      = List.range' 1 b.all_stops_modified_count) :
    (submit_amend_bracket_order_all_stop_loss_orders b stop_loss fuel snaps
        now).2 = some (complete_all_stops b finalStops stop_loss now)
    ∧ (∀ (i : Nat) (h1 : i < finalStops.length)
        (h2 : i < b.stop_loss_orders.length),
        finalStops[i].modify_count = b.stop_loss_orders[i].modify_count + 1)
    ∧ (complete_all_stops b finalStops stop_loss now).stop_loss_trigger_price
        = stop_loss
    ∧ (complete_all_stops b finalStops stop_loss
        now).all_stops_modified_count = b.all_stops_modified_count + 1
    ∧ (complete_all_stops b finalStops stop_loss
        now).all_stops_modified_history
        = b.all_stops_modified_history
          ++ [(b.all_stops_modified_count + 1,
               stopEntry now stop_loss b.stop_loss_trigger_price)]
    ∧ ((complete_all_stops b finalStops stop_loss
        now).all_stops_modified_history).map Prod.fst
        = List.range' 1 (b.all_stops_modified_count + 1) := by
  have hdone : allStopsAtExpected (modifyMapStops b) finalStops = true :=
    spin_all_stops_sound (modifyMapStops b) fuel snaps finalStops hspin
  have hfresh : b.all_stops_modified_count + 1 ∉
      b.all_stops_modified_history.map Prod.fst := by
    rw [hkeys]
    intro hmem
    have := List.mem_range'_1.mp hmem
    omega
  have hhist : (complete_all_stops b finalStops stop_loss
      now).all_stops_modified_history
      = b.all_stops_modified_history
        ++ [(b.all_stops_modified_count + 1,
             stopEntry now stop_loss b.stop_loss_trigger_price)] := by
    simp [complete_all_stops, update_stop_loss_trigger_price, historyInsert,
      hfresh, stopEntry]
  refine ⟨?_, ?_, ?_, ?_, hhist, ?_⟩
  · simp only [submit_amend_bracket_order_all_stop_loss_orders]
    rw [hspin]
  · intro i h1 h2
    have hid : finalStops[i].order_id = b.stop_loss_orders[i].order_id := by
      have h := congrArg (fun l => l[i]?) hids
      simp only [List.getElem?_map] at h
      rw [List.getElem?_eq_getElem h1, List.getElem?_eq_getElem h2] at h
      simpa using h
    have hlookup := lookup_modify_map b.stop_loss_orders hnd i h2
    rw [allStopsAtExpected, List.all_eq_true] at hdone
    have hp := hdone finalStops[i] (List.getElem_mem h1)
    rw [hid] at hp
    simp only [modifyMapStops] at hp
    rw [hlookup] at hp
    simpa using hp
  · simp [complete_all_stops, update_stop_loss_trigger_price]
  · simp [complete_all_stops, update_stop_loss_trigger_price, historyInsert]
  · rw [hhist, List.map_append, hkeys, List.range'_concat]
    simp [Nat.add_comm]

/-- First stop-loss child of the C3 witness scenario, at issue time. -/
def stopA0 : ChildOrder :=
  { order_id := "SA", basket_id := some "9", security_code := "NQZ4"
    exchange_code := "CME", quantity := 2, modify_count := 0 }

/-- Second stop-loss child of the C3 witness scenario, at issue time. -/
def stopB0 : ChildOrder :=
  { order_id := "SB", basket_id := some "9", security_code := "NQZ4"
    exchange_code := "CME", quantity := 3, modify_count := 2 }

/-- The two stop-loss children once each amendment has been acknowledged:
each `modify_count` one above its issue-time value. -/
def twoStopsFinal : List ChildOrder :=
  [{ stopA0 with modify_count := 1 }, { stopB0 with modify_count := 3 }]

/-- History entry predating the C3 witness amendment. -/
def prevStopEntry : StopAmendEntry :=
  { modified_at := 1, new_stop_loss := 100, old_stop_loss := 105 }

/-- Bracket of the C3 witness scenario: two stop-loss children, one earlier
bulk amendment on record (counter 1, history key 1). -/
def bracketTwoStops : BracketOrder :=
  { order_id := "B2", basket_id := some "9"
    stop_loss_orders := [stopA0, stopB0], take_profit_orders := []
    stop_loss_trigger_price := 100, take_profit_limit_price := 120
    all_stops_modified_count := 1, all_stops_modified := true
    all_stops_modified_history := [(1, prevStopEntry)] }

/-- Witness for C3: on the two-stop bracket, completion is observed once both
children's counts are one above issue time; the counter moves 1 → 2, the new
trigger price 95 is recorded, and exactly one history entry is appended under
key 2 = previous max + 1. -/
theorem amend_all_stops_completion_witness :
    (submit_amend_bracket_order_all_stop_loss_orders bracketTwoStops 95 1
        (fun _ => twoStopsFinal) 9).2
      = some (complete_all_stops bracketTwoStops twoStopsFinal 95 9)
    ∧ (complete_all_stops bracketTwoStops twoStopsFinal 95
        9).all_stops_modified_count = 2
    ∧ (complete_all_stops bracketTwoStops twoStopsFinal 95
        9).all_stops_modified_history
        = [(1, prevStopEntry), (2, stopEntry 9 95 100)]
    ∧ (complete_all_stops bracketTwoStops twoStopsFinal 95
        9).stop_loss_trigger_price = 95 := by
  have h := amend_all_stops_completion bracketTwoStops twoStopsFinal 95 9 1
    (fun _ => twoStopsFinal) (by decide) (by decide) (by decide) (by decide)
  refine ⟨h.1, ?_, ?_, h.2.2.1⟩
  · simpa using h.2.2.2.1
  · simpa using h.2.2.2.2.1

/- ===================================================================
   Theorems for cancel operations (claims C8 and C9)
   =================================================================== -/

/-- C9: `submit_cancel_bracket_order_all_children` issues exactly one cancel
request per stop-loss child of the bracket, each carrying that child's basket
id, and issues none for any take-profit child (whenever a take-profit child's
basket id differs from every stop-loss child's, no issued request carries
it) — even though the operation's name says all children. -/
theorem cancel_all_children_cancels_only_stop_losses (b : BracketOrder) :
    submit_cancel_bracket_order_all_children b
      = b.stop_loss_orders.map (fun o => send_cancel_order o.basket_id)
    ∧ (submit_cancel_bracket_order_all_children b).length
        = b.stop_loss_orders.length
    ∧ (∀ tp ∈ b.take_profit_orders,
        (∀ s ∈ b.stop_loss_orders, tp.basket_id ≠ s.basket_id) →
        send_cancel_order tp.basket_id ∉
          submit_cancel_bracket_order_all_children b) := by
  have hmap : ∀ l : List ChildOrder,
      cancel_children_loop l = l.map (fun o => send_cancel_order o.basket_id) := by
    intro l
    induction l with
    | nil => rfl
    | cons o rest ih => simp [cancel_children_loop, ih]
  refine ⟨hmap b.stop_loss_orders, ?_, ?_⟩
  · rw [submit_cancel_bracket_order_all_children, hmap]
    simp
  · intro tp htp hdiff hmem
    rw [submit_cancel_bracket_order_all_children, hmap] at hmem
    rcases List.mem_map.mp hmem with ⟨s, hs, heq⟩
    have hbid : s.basket_id = tp.basket_id := by
      have := congrArg CancelOrderCmd.basket_id heq
      simpa [send_cancel_order] using this
    exact hdiff s hs hbid.symm

/-- Take-profit child used in the C9 witness. -/
def tpChild : ChildOrder :=
  { order_id := "T1", basket_id := some "77", security_code := "ESZ4"
    exchange_code := "CME", quantity := 1, modify_count := 0 }

/-- Bracket of the C9 witness: one stop-loss child and one take-profit child
with distinct basket ids. -/
def bracketStopAndTp : BracketOrder :=
  { order_id := "B3", basket_id := some "41"
    stop_loss_orders := [stuckStopChild], take_profit_orders := [tpChild]
    stop_loss_trigger_price := 100, take_profit_limit_price := 120
    all_stops_modified_count := 0, all_stops_modified := false
    all_stops_modified_history := [] }

/-- Witness for C9: the bracket with one stop-loss and one take-profit child
produces exactly one cancel request — the stop-loss child's — and none for
the take-profit child. -/
theorem cancel_all_children_cancels_only_stop_losses_witness :
    submit_cancel_bracket_order_all_children bracketStopAndTp
      = [send_cancel_order (some "41")]
    ∧ send_cancel_order tpChild.basket_id ∉
        submit_cancel_bracket_order_all_children bracketStopAndTp := by
  have h := cancel_all_children_cancels_only_stop_losses bracketStopAndTp
  refine ⟨by simpa using h.1, ?_⟩
  exact h.2.2 tpChild (by simp [bracketStopAndTp]) (by decide)

/-- C8: `submit_cancel_order` on an unknown order id fails with
`OrderNotFound` before anything is scheduled, so no frame reaches the wire;
on a stored order with no broker-assigned basket id it fails with
`BasketIdNotYetAssigned`; otherwise it schedules exactly one cancel request
carrying the stored order's basket id. -/
theorem submit_cancel_order_spec (orders : List (String × StoredOrder))
    (oid : String) :
    (List.lookup oid orders = none →
      submit_cancel_order orders oid
        = Except.error OrderLookupError.orderNotFound)
    ∧ (∀ o, List.lookup oid orders = some o → o.basket_id = none →
      submit_cancel_order orders oid
        = Except.error OrderLookupError.basketIdNotYetAssigned)
    ∧ (∀ o bid, List.lookup oid orders = some o → o.basket_id = some bid →
      submit_cancel_order orders oid
        = Except.ok (send_cancel_order (some bid))) := by
  refine ⟨?_, ?_, ?_⟩
  · intro h
    simp [submit_cancel_order, get_order_by_order_id, h, bind, Except.bind]
  · intro o h hb
    simp [submit_cancel_order, get_order_by_order_id, h, order_basket_id, hb,
      bind, Except.bind, Functor.map, Except.map]
  · intro o bid h hb
    simp [submit_cancel_order, get_order_by_order_id, h, order_basket_id, hb,
      bind, Except.bind, Functor.map, Except.map, pure, Except.pure]

/-- Order store used in the C8 witness: one acknowledged order with basket id
"B9" and one not yet acknowledged. -/
def storedOrders : List (String × StoredOrder) :=
  [("O1", { order_id := "O1", basket_id := some "B9" }),
   ("O2", { order_id := "O2", basket_id := none })]

/-- Witness for C8: an unknown id gives `OrderNotFound`, the unacknowledged
order gives `BasketIdNotYetAssigned`, the acknowledged order gives exactly
one cancel request carrying basket id "B9". -/
theorem submit_cancel_order_spec_witness :
    submit_cancel_order storedOrders "NOPE"
      = Except.error OrderLookupError.orderNotFound
    ∧ submit_cancel_order storedOrders "O2"
      = Except.error OrderLookupError.basketIdNotYetAssigned
    ∧ submit_cancel_order storedOrders "O1"
      = Except.ok (send_cancel_order (some "B9")) := by
  refine ⟨?_, ?_, ?_⟩
  · exact (submit_cancel_order_spec storedOrders "NOPE").1 rfl
  · exact (submit_cancel_order_spec storedOrders "O2").2.1
      { order_id := "O2", basket_id := none } rfl rfl
  · exact (submit_cancel_order_spec storedOrders "O1").2.2
      { order_id := "O1", basket_id := some "B9" } "B9" rfl rfl

/- ===================================================================
   The receive loop: `_consume_order_updates` (order_api.py lines 274-307)
   =================================================================== -/

/-- Environment events observed by the receive loop: a frame arrives inside
the idle window (with a flag marking whether processing it would raise), or
`asyncio.wait_for` times out, at which moment the loop inspects whether the
websocket reports itself open. -/
inductive RecvEvent
  | frame (template_id : Nat) (fault : Bool)
  | timeout (wsOpen : Bool)
  deriving Repr, DecidableEq

/-- The idle window of `asyncio.wait_for(self.recv_buffer(), timeout=5)`. -/
def heartbeatIdleWindow : Nat := 5

/-- Failures on the receive loop's path.  `websocketClosed` is the
`WebsocketClosedException` of the source, the exception playing the spec's
`ConnectionClosed` role; `processingFault` stands for any exception raised
while processing a received frame. -/
inductive LoopError
  | websocketClosed
  | processingFault
  deriving Repr, DecidableEq

/-- Result of the inner `while waiting_for_msg` loop: a frame was received
(after some number of heartbeats sent on intermediate timeouts), or
`WebsocketClosedException` was raised on a timeout with the websocket not
open, or the events ran out with the loop still awaiting a frame. -/
inductive WaitResult
  | msg (template_id : Nat) (fault : Bool) (heartbeats : Nat)
      (rest : List RecvEvent)
  | closedRaise (heartbeats : Nat)
  | blocked (heartbeats : Nat)
  deriving Repr, DecidableEq

/-- The inner `while waiting_for_msg` loop: on a timeout with the websocket
open it sends exactly one heartbeat and keeps waiting; on a timeout with the
websocket not open it raises `WebsocketClosedException`; on a frame it stops
waiting. -/
def wait_for_msg : Nat → List RecvEvent → WaitResult
  | hb, [] => WaitResult.blocked hb
  | hb, RecvEvent.frame tid fault :: rest => WaitResult.msg tid fault hb rest
  | hb, RecvEvent.timeout true :: rest => wait_for_msg (hb + 1) rest
  | hb, RecvEvent.timeout false :: _ => WaitResult.closedRaise hb

/-- Observable outcome of one iteration of the outer `while connected` loop
of `_consume_order_updates`. -/
structure IterOutcome where
  heartbeats : Nat
  printed : Option LoopError
  propagated : Option LoopError
  connected : Bool
  rest : List RecvEvent
  deriving Repr, DecidableEq

/-- One iteration of the outer `while connected` loop.  The whole iteration
body sits inside `try ... except Exception as e: print(e)`: any exception —
including the `WebsocketClosedException` raised when the websocket is found
closed — is caught there and printed, after which the loop re-enters with
`connected` unchanged; nothing is re-raised to the caller.  Template 19
(heartbeat acknowledgment) is dropped; template 13 (logout acknowledgment)
clears `connected`; anything else is handed to `_process_order_update`. -/
def consume_iteration (events : List RecvEvent) : IterOutcome :=
  match wait_for_msg 0 events with
  | WaitResult.blocked hb =>
    { heartbeats := hb, printed := none, propagated := none
      connected := true, rest := [] }
  | WaitResult.closedRaise hb =>
    { heartbeats := hb, printed := some LoopError.websocketClosed
      propagated := none, connected := true, rest := [] }
  | WaitResult.msg tid fault hb rest =>
    if tid = 19 then
      { heartbeats := hb, printed := none, propagated := none
        connected := true, rest := rest }
    else if tid = 13 then
      { heartbeats := hb, printed := none, propagated := none
        connected := false, rest := rest }
    else
      { heartbeats := hb
        printed := if fault then some LoopError.processingFault else none
        propagated := none, connected := true, rest := rest }

/-- C2: the receive loop swallows its failures.  On a timeout with the
websocket reporting not-open, `WebsocketClosedException` is raised but is
caught by the iteration's catch-all handler and printed: it is not
propagated to the caller and the loop stays connected, re-entering forever
instead of failing with the spec's `ConnectionClosed`; and no iteration of
the loop ever propagates any error to its caller — every failure is printed
by `print(e)`. -/
theorem consume_loop_swallows_and_prints_errors :
    (consume_iteration [RecvEvent.timeout false]).printed
        = some LoopError.websocketClosed
    ∧ (consume_iteration [RecvEvent.timeout false]).propagated = none
    ∧ (consume_iteration [RecvEvent.timeout false]).connected = true
    ∧ ∀ events : List RecvEvent,
        (consume_iteration events).propagated = none := by
  refine ⟨rfl, rfl, rfl, ?_⟩
  intro events
  cases h : wait_for_msg 0 events with
  | msg tid fault hb rest =>
    by_cases h19 : tid = 19
    · simp [consume_iteration, h, h19]
    · by_cases h13 : tid = 13
      · simp [consume_iteration, h, h19, h13]
      · by_cases hf : fault
        · simp [consume_iteration, h, h19, h13, hf]
        · simp [consume_iteration, h, h19, h13, hf]
  | closedRaise hb => simp [consume_iteration, h]
  | blocked hb => simp [consume_iteration, h]

/-- C7: in every iteration of the receive loop, a timeout of the fixed
5-unit idle window with the websocket reporting open emits exactly one
heartbeat request and keeps waiting on the remaining events; a timeout with
the websocket reporting not-open raises `WebsocketClosedException` (the
`ConnectionClosed` of the spec) with no heartbeat sent at that point. -/
theorem idle_window_heartbeat_or_closed (hb : Nat) (rest : List RecvEvent) :
    heartbeatIdleWindow = 5
    ∧ wait_for_msg hb (RecvEvent.timeout true :: rest)
        = wait_for_msg (hb + 1) rest
    ∧ wait_for_msg hb (RecvEvent.timeout false :: rest)
        = WaitResult.closedRaise hb := by
  exact ⟨rfl, rfl, rfl⟩

/- ===================================================================
   Update logs (order_api.py lines 337-351 and 366-376, claim C10)
   =================================================================== -/

/-- A decoded notification row as produced by `_get_row_information`:
`user_tag` and `order_id` are the fields order_api.py touches, `payload`
stands for all remaining decoded fields. -/
structure UpdateRow where
  user_tag : Option String
  order_id : Option String
  payload : Nat
  deriving Repr, DecidableEq

/-- The `row['order_id'] = row.get('user_tag')` assignment performed by both
notification handlers before appending. -/
def rowWithOrderId (r : UpdateRow) : UpdateRow :=
  { r with order_id := r.user_tag }

/-- The two update logs owned by the API object. -/
structure UpdatesState where
  rithmic_updates_data : List UpdateRow
  exchange_updates_data : List UpdateRow
  deriving Repr, DecidableEq

/-- `_process_rithmic_order_notification`: tag the row with its order id,
append it to `rithmic_updates_data`, hand it to the status manager (state
not modelled here) and return it. -/
def process_rithmic_order_notification (s : UpdatesState) (row : UpdateRow) :
    UpdatesState × UpdateRow :=
  let row2 := rowWithOrderId row
  ({ s with rithmic_updates_data := s.rithmic_updates_data ++ [row2] }, row2)

/-- `_process_exchange_order_notification`: same shape for the exchange
log. -/
def process_exchange_order_notification (s : UpdatesState) (row : UpdateRow) :
    UpdatesState × UpdateRow :=
  let row2 := rowWithOrderId row
  ({ s with exchange_updates_data := s.exchange_updates_data ++ [row2] },
   row2)

/-- The `rithmic_updates` property: the dataframe is built over the shallow
copy `self.rithmic_updates_data[:]`; its row content is the log's content at
call time. -/
def rithmic_updates (s : UpdatesState) : List UpdateRow :=
  s.rithmic_updates_data

/-- The `exchange_updates` property, likewise over a copy of the log. -/
def exchange_updates (s : UpdatesState) : List UpdateRow :=
  s.exchange_updates_data

/-- Ingesting a sequence of rithmic notifications, one after the other. -/
def process_rithmic_many (s : UpdatesState) (rows : List UpdateRow) :
    UpdatesState :=
  rows.foldl (fun st r => (process_rithmic_order_notification st r).1) s

/-- Ingesting a sequence of exchange notifications. -/
def process_exchange_many (s : UpdatesState) (rows : List UpdateRow) :
    UpdatesState :=
  rows.foldl (fun st r => (process_exchange_order_notification st r).1) s

/-- Any sequence of rithmic notifications extends the rithmic log on the
right, one appended record per notification. -/
theorem process_rithmic_many_eq (rows : List UpdateRow) :
    ∀ s : UpdatesState,
      (process_rithmic_many s rows).rithmic_updates_data
        = s.rithmic_updates_data ++ rows.map rowWithOrderId := by
  induction rows with
  | nil => intro s; simp [process_rithmic_many]
  | cons r rest ih =>
    intro s
    have step : process_rithmic_many s (r :: rest)
        = process_rithmic_many ((process_rithmic_order_notification s r).1)
            rest := rfl
    rw [step, ih]
    simp [process_rithmic_order_notification]

/-- Any sequence of exchange notifications extends the exchange log on the
right. -/
theorem process_exchange_many_eq (rows : List UpdateRow) :
    ∀ s : UpdatesState,
      (process_exchange_many s rows).exchange_updates_data
        = s.exchange_updates_data ++ rows.map rowWithOrderId := by
  induction rows with
  | nil => intro s; simp [process_exchange_many]
  | cons r rest ih =>
    intro s
    have step : process_exchange_many s (r :: rest)
        = process_exchange_many ((process_exchange_order_notification s r).1)
            rest := rfl
    rw [step, ih]
    simp [process_exchange_order_notification]

/-- C10: each ingested rithmic/exchange notification appends exactly one
record to its log and touches nothing else: earlier entries are never
mutated or removed (any later sequence of notifications leaves the former
log as a prefix), and the accessors read the log's value at call time, so a
snapshot equals the first entries of any later log state and is unaffected
by later appends. -/
theorem update_logs_append_only (s : UpdatesState) (row : UpdateRow)
    (rows : List UpdateRow) :
    (process_rithmic_order_notification s row).1.rithmic_updates_data
        = s.rithmic_updates_data ++ [rowWithOrderId row]
    ∧ (process_rithmic_order_notification s row).1.exchange_updates_data
        = s.exchange_updates_data
    ∧ (process_exchange_order_notification s row).1.exchange_updates_data
        = s.exchange_updates_data ++ [rowWithOrderId row]
    ∧ (process_exchange_order_notification s row).1.rithmic_updates_data
        = s.rithmic_updates_data
    ∧ rithmic_updates (process_rithmic_many s rows)
        = rithmic_updates s ++ rows.map rowWithOrderId
    ∧ List.take (rithmic_updates s).length
        (rithmic_updates (process_rithmic_many s rows)) = rithmic_updates s
    ∧ exchange_updates (process_exchange_many s rows)
        = exchange_updates s ++ rows.map rowWithOrderId
    ∧ List.take (exchange_updates s).length
        (exchange_updates (process_exchange_many s rows))
        = exchange_updates s := by
  refine ⟨rfl, rfl, rfl, rfl, ?_, ?_, ?_, ?_⟩
  · simpa [rithmic_updates] using process_rithmic_many_eq rows s
  · rw [show rithmic_updates (process_rithmic_many s rows)
        = rithmic_updates s ++ rows.map rowWithOrderId from by
      simpa [rithmic_updates] using process_rithmic_many_eq rows s]
    exact List.take_left _ _
  · simpa [exchange_updates] using process_exchange_many_eq rows s
  · rw [show exchange_updates (process_exchange_many s rows)
        = exchange_updates s ++ rows.map rowWithOrderId from by
      simpa [exchange_updates] using process_exchange_many_eq rows s]
    exact List.take_left _ _

/- ===================================================================
   The submit path (order_api.py lines 222-235 and 378-541, claim C6)
   =================================================================== -/

/-- Failures of the submit path.  `noTradingConfig` is the
`NoTradingConfigException` of the source, raised only by
`_check_update_status` during connect; `noneTypeFault` models the Python
`TypeError` of taking `len(None)` when reference data was never loaded — the
submit path itself never checks `have_trading_config`. -/
inductive SubmitError
  | noValidTradingAccount
  | noValidTradeRoute
  | noTradingConfig
  | noneTypeFault
  deriving Repr, DecidableEq

/-- The slice of the API object the submit path reads: `accounts` and
`trade_routes` stay `None` until `_set_log_in_details` has run. -/
structure OrderApiState where
  accounts : Option (List AccountListRecord)
  trade_routes : Option (List TradeRouteRecord)
  have_trading_config : Bool
  fcm_id : String
  ib_id : String
  deriving Repr, DecidableEq

/-- The `primary_account_id` property: with zero stored accounts it raises
`NoValidTradingAccountException`, otherwise it returns the first row's
account id. -/
def primary_account_id (s : OrderApiState) : Except SubmitError String :=
  match s.accounts with
  | none => Except.error SubmitError.noneTypeFault
  | some accts =>
    match accts with
    | [] => Except.error SubmitError.noValidTradingAccount
    | a :: _ => Except.ok a.account_id

/-- `_get_trade_route`: filter the stored routes by exchange; no match
raises `NoValidTradeRouteException`, otherwise the first match's route is
returned. -/
def get_trade_route (s : OrderApiState) (exchange_code : String) :
    Except SubmitError String :=
  match s.trade_routes with
  | none => Except.error SubmitError.noneTypeFault
  | some routes =>
    match routes.filter (fun r => r.exchange = exchange_code) with
    | [] => Except.error SubmitError.noValidTradeRoute
    | r :: _ => Except.ok r.trade_route

/-- The protocol's transaction-type enumeration. -/
inductive TransactionType
  | BUY
  | SELL
  deriving Repr, DecidableEq

/-- The `SIDE_MAP` module constant mapping the boolean buy flag. -/
def SIDE_MAP (is_buy : Bool) : TransactionType :=
  if is_buy then TransactionType.BUY else TransactionType.SELL

/-- Price type of a `RequestNewOrder`. -/
inductive PriceType
  | MARKET
  | LIMIT
  deriving Repr, DecidableEq

/-- The `RequestNewOrder` frame (template 312) as built by
`_send_market_order` / `_send_limit_order`; duration is fixed to DAY and
placement to MANUAL in the source and omitted here. -/
structure NewOrderCmd where
  template_id : Nat
  user_tag : String
  account_id : String
  exchange : String
  symbol : String
  quantity : Nat
  transaction_type : TransactionType
  price_type : PriceType
  trade_route : String
  price : Option Int
  deriving Repr, DecidableEq

/-- The `RequestBracketOrder` frame (template 330) as built by
`_send_bracket_order`, reduced to the fields the claims inspect. -/
structure BracketOrderCmd where
  template_id : Nat
  user_tag : String
  account_id : String
  exchange : String
  symbol : String
  quantity : Nat
  transaction_type : TransactionType
  price : Int
  trade_route : String
  target_ticks : Nat
  stop_ticks : Nat
  deriving Repr, DecidableEq

/-- `_send_market_order` as run inside the scheduled coroutine: it reads
`primary_account_id` (line 395) before `_get_trade_route` (line 403), both
before `send_buffer`, so an error means no frame is sent — but it surfaces
inside the coroutine, whose future the submitting caller never reads. -/
def send_market_order (s : OrderApiState) (order_id security_code
    exchange_code : String) (quantity : Nat) (is_buy : Bool) :
    Except SubmitError NewOrderCmd := do
  let acct ← primary_account_id s
  let route ← get_trade_route s exchange_code
  pure { template_id := 312, user_tag := order_id, account_id := acct
         exchange := exchange_code, symbol := security_code
         quantity := quantity, transaction_type := SIDE_MAP is_buy
         price_type := PriceType.MARKET, trade_route := route, price := none }

/-- `_send_limit_order`: same shape with price type LIMIT and the limit
price set. -/
def send_limit_order (s : OrderApiState) (order_id security_code
    exchange_code : String) (quantity : Nat) (is_buy : Bool)
    (limit_price : Int) : Except SubmitError NewOrderCmd := do
  let acct ← primary_account_id s
  let route ← get_trade_route s exchange_code
  pure { template_id := 312, user_tag := order_id, account_id := acct
         exchange := exchange_code, symbol := security_code
         quantity := quantity, transaction_type := SIDE_MAP is_buy
         price_type := PriceType.LIMIT, trade_route := route
         price := some limit_price }

/-- `_send_bracket_order`: account id read at line 460, trade route at line
469, both before `send_buffer`. -/
def send_bracket_order (s : OrderApiState) (order_id security_code
    exchange_code : String) (quantity : Nat) (is_buy : Bool)
    (limit_price : Int) (take_profit_ticks stop_loss_ticks : Nat) :
    Except SubmitError BracketOrderCmd := do
  let acct ← primary_account_id s
  let route ← get_trade_route s exchange_code
  pure { template_id := 330, user_tag := order_id, account_id := acct
         exchange := exchange_code, symbol := security_code
         quantity := quantity, transaction_type := SIDE_MAP is_buy
         price := limit_price, trade_route := route
         target_ticks := take_profit_ticks, stop_ticks := stop_loss_ticks }

/-- The local order created synchronously by the status manager when a
submit call runs. -/
structure LocalOrder where
  order_id : String
  security_code : String
  exchange_code : String
  quantity : Nat
  is_buy : Bool
  deriving Repr, DecidableEq

/-- Modelled from the spec: `StatusManager._add_market_order` and its limit
and bracket variants (`status_manager.py`, not under src/) create the local
order in status Created; for brackets the child groups are created along
with the parent, with tick offsets converted through the instrument's tick
multiplier obtained from `get_reference_data` (base API, also not under
src/) — reduced here to the created handle, since claim C6 concerns only
whether and when creation happens. -/
def add_local_order (order_id security_code exchange_code : String)
    (quantity : Nat) (is_buy : Bool) : LocalOrder :=
  { order_id := order_id, security_code := security_code
    exchange_code := exchange_code, quantity := quantity, is_buy := is_buy }

/-- The split outcome of a submit call: what it does synchronously in the
caller (local order creation, any exception raised to the caller) and what
the coroutine it schedules later does. -/
structure SubmitOutcome (β : Type) where
  created : Option LocalOrder
  syncRaised : Option SubmitError
  asyncOutcome : Except SubmitError β

/-- `submit_market_order`: create the local order via the status manager,
schedule `_send_market_order` with `run_coroutine_threadsafe` (discarding
the future), return the order at once.  Nothing is raised synchronously and
no trading-config check is performed. -/
def submit_market_order (s : OrderApiState) (order_id security_code
    exchange_code : String) (quantity : Nat) (is_buy : Bool) :
    SubmitOutcome NewOrderCmd :=
  { created := some (add_local_order order_id security_code exchange_code
      quantity is_buy)
    syncRaised := none
    asyncOutcome := send_market_order s order_id security_code exchange_code
      quantity is_buy }

/-- `submit_limit_order`, of the same shape. -/
def submit_limit_order (s : OrderApiState) (order_id security_code
    exchange_code : String) (quantity : Nat) (is_buy : Bool)
    (limit_price : Int) : SubmitOutcome NewOrderCmd :=
  { created := some (add_local_order order_id security_code exchange_code
      quantity is_buy)
    syncRaised := none
    asyncOutcome := send_limit_order s order_id security_code exchange_code
      quantity is_buy limit_price }

/-- `submit_bracket_order`, of the same shape (reference data is fetched and
the bracket with its child groups created before the send is scheduled). -/
def submit_bracket_order (s : OrderApiState) (order_id security_code
    exchange_code : String) (quantity : Nat) (is_buy : Bool)
    (limit_price : Int) (take_profit_ticks stop_loss_ticks : Nat) :
    SubmitOutcome BracketOrderCmd :=
  { created := some (add_local_order order_id security_code exchange_code
      quantity is_buy)
    syncRaised := none
    asyncOutcome := send_bracket_order s order_id security_code exchange_code
      quantity is_buy limit_price take_profit_ticks stop_loss_ticks }

/- ===================================================================
   Theorems for the submit path (claim C6)
   =================================================================== -/

/-- State after a login whose reference data contained no accounts and no
trade routes. -/
def emptyConfigState : OrderApiState :=
  { accounts := some [], trade_routes := some []
    have_trading_config := true, fcm_id := "F", ib_id := "I" }

/-- Counterexample for C6: with no valid trading account,
`submit_market_order` raises nothing synchronously to the caller and does
create a local order; `NoValidTradingAccountException` surfaces only inside
the scheduled coroutine — contradicting the claim that the error is raised
synchronously before any network action with no local order created. -/
theorem submit_validation_not_synchronous_counterexample :
    (submit_market_order emptyConfigState "O1" "ESZ4" "CME" 1
        true).syncRaised = none
    ∧ (submit_market_order emptyConfigState "O1" "ESZ4" "CME" 1
        true).created ≠ none
    ∧ (submit_market_order emptyConfigState "O1" "ESZ4" "CME" 1
        true).asyncOutcome = Except.error SubmitError.noValidTradingAccount
    := by
  refine ⟨rfl, ?_, ?_⟩
  · simp [submit_market_order]
  · simp [submit_market_order, send_market_order, primary_account_id,
      emptyConfigState, bind, Except.bind]

/-- C6 amended: every submit call (market, limit, bracket) raises nothing
synchronously, creates the local order unconditionally, and defers its
outcome to the scheduled send coroutine; inside that coroutine — before any
frame is sent for the order, but invisibly to the caller — a missing primary
trading account yields `NoValidTradingAccountException`, a missing trade
route for the exchange yields `NoValidTradeRouteException`, and when both
exist the frame carries the primary account and the exchange's first route;
no submit-path error is ever `NoTradingConfigException`, which is not
checked on this path. -/
theorem submit_validations_run_in_scheduled_coroutine (s : OrderApiState)
    (oid sec exch : String) (qty : Nat) (buy : Bool) (lp bp : Int)
    (tpt slt : Nat) :
    (submit_market_order s oid sec exch qty buy).syncRaised = none
    ∧ ((submit_market_order s oid sec exch qty buy).created).isSome = true
    ∧ (submit_market_order s oid sec exch qty buy).asyncOutcome
        = send_market_order s oid sec exch qty buy
    ∧ (submit_limit_order s oid sec exch qty buy lp).syncRaised = none
    ∧ ((submit_limit_order s oid sec exch qty buy lp).created).isSome = true
    ∧ (submit_limit_order s oid sec exch qty buy lp).asyncOutcome
        = send_limit_order s oid sec exch qty buy lp
    ∧ (submit_bracket_order s oid sec exch qty buy bp tpt slt).syncRaised
        = none
    ∧ ((submit_bracket_order s oid sec exch qty buy bp tpt slt).created
        ).isSome = true
    ∧ (submit_bracket_order s oid sec exch qty buy bp tpt slt).asyncOutcome
        = send_bracket_order s oid sec exch qty buy bp tpt slt
    ∧ (s.accounts = some [] →
        send_market_order s oid sec exch qty buy
          = Except.error SubmitError.noValidTradingAccount
        ∧ send_limit_order s oid sec exch qty buy lp
          = Except.error SubmitError.noValidTradingAccount
        ∧ send_bracket_order s oid sec exch qty buy bp tpt slt
          = Except.error SubmitError.noValidTradingAccount)
    ∧ (∀ a arest routes, s.accounts = some (a :: arest) →
        s.trade_routes = some routes →
        routes.filter (fun r => r.exchange = exch) = [] →
        send_market_order s oid sec exch qty buy
          = Except.error SubmitError.noValidTradeRoute
        ∧ send_limit_order s oid sec exch qty buy lp
          = Except.error SubmitError.noValidTradeRoute
        ∧ send_bracket_order s oid sec exch qty buy bp tpt slt
          = Except.error SubmitError.noValidTradeRoute)
    ∧ (∀ a arest routes r rrest, s.accounts = some (a :: arest) →
        s.trade_routes = some routes →
        routes.filter (fun rt => rt.exchange = exch) = r :: rrest →
        ∃ cmd, send_market_order s oid sec exch qty buy = Except.ok cmd
          ∧ cmd.account_id = a.account_id
          ∧ cmd.trade_route = r.trade_route)
    ∧ (∀ e, send_market_order s oid sec exch qty buy = Except.error e →
        e ≠ SubmitError.noTradingConfig) := by
  refine ⟨rfl, rfl, rfl, rfl, rfl, rfl, rfl, rfl, rfl, ?_, ?_, ?_, ?_⟩
  · intro hacc
    refine ⟨?_, ?_, ?_⟩ <;>
      simp [send_market_order, send_limit_order, send_bracket_order,
        primary_account_id, hacc, bind, Except.bind]
  · intro a arest routes hacc hroutes hfilter
    refine ⟨?_, ?_, ?_⟩ <;>
      simp [send_market_order, send_limit_order, send_bracket_order,
        primary_account_id, get_trade_route, hacc, hroutes, hfilter,
        bind, Except.bind]
  · intro a arest routes r rrest hacc hroutes hfilter
    have hcmd : send_market_order s oid sec exch qty buy
        = Except.ok
            { template_id := 312, user_tag := oid
              account_id := a.account_id, exchange := exch, symbol := sec
              quantity := qty, transaction_type := SIDE_MAP buy
              price_type := PriceType.MARKET, trade_route := r.trade_route
              price := none } := by
      simp [send_market_order, primary_account_id, get_trade_route, hacc,
        hroutes, hfilter, bind, Except.bind, pure, Except.pure]
    exact ⟨_, hcmd, rfl, rfl⟩
  · intro e he
    rcases hacc : s.accounts with _ | accts
    · rw [send_market_order] at he
      simp [primary_account_id, hacc, bind, Except.bind] at he
      rw [← he]
      decide
    · rcases haccts : accts with _ | ⟨a, arest⟩
      · rw [send_market_order] at he
        simp [primary_account_id, hacc, haccts, bind, Except.bind] at he
        rw [← he]
        decide
      · rcases hroutes : s.trade_routes with _ | routes
        · rw [send_market_order] at he
          simp [primary_account_id, get_trade_route, hacc, haccts, hroutes,
            bind, Except.bind] at he
          rw [← he]
          decide
        · rcases hfilter : routes.filter (fun r => r.exchange = exch) with
            _ | ⟨r, rrest⟩
          · rw [send_market_order] at he
            simp [primary_account_id, get_trade_route, hacc, haccts,
              hroutes, hfilter, bind, Except.bind] at he
            rw [← he]
            decide
          · rw [send_market_order] at he
            simp [primary_account_id, get_trade_route, hacc, haccts,
              hroutes, hfilter, bind, Except.bind, pure, Except.pure] at he

/-- Account record used in the C6 witness. -/
def acctA1 : AccountListRecord :=
  { template_id := 302, rq_handler_rp_code := [], rp_code := []
    fcm_id := "F", ib_id := "I", account_id := "A1", account_name := "Main" }

/-- Trade route used in the C6 witness. -/
def routeCME : TradeRouteRecord :=
  { template_id := 311, rp_handler_code := [], rp_code := []
    fcm_id := "F", ib_id := "I", exchange := "CME", trade_route := "globex"
    status := "UP", is_default := true }

/-- State with a primary account but no trade route for any exchange. -/
def routeLessState : OrderApiState :=
  { accounts := some [acctA1], trade_routes := some []
    have_trading_config := true, fcm_id := "F", ib_id := "I" }

/-- State with a primary account and a CME trade route. -/
def fullState : OrderApiState :=
  { accounts := some [acctA1], trade_routes := some [routeCME]
    have_trading_config := true, fcm_id := "F", ib_id := "I" }

/-- Witness for the amended C6: concretely, the missing-account state fails
the coroutine with `NoValidTradingAccountException` while the submit itself
raises nothing; the route-less state fails it with
`NoValidTradeRouteException`; the fully configured state produces a frame
carrying account "A1" and route "globex". -/
theorem submit_validations_run_in_scheduled_coroutine_witness :
    (submit_market_order emptyConfigState "O1" "ESZ4" "CME" 1
        true).syncRaised = none
    ∧ send_market_order emptyConfigState "O1" "ESZ4" "CME" 1 true
        = Except.error SubmitError.noValidTradingAccount
    ∧ send_market_order routeLessState "O1" "ESZ4" "CME" 1 true
        = Except.error SubmitError.noValidTradeRoute
    ∧ (∃ cmd, send_market_order fullState "O1" "ESZ4" "CME" 1 true
        = Except.ok cmd
        ∧ cmd.account_id = "A1" ∧ cmd.trade_route = "globex") := by
  have h0 := submit_validations_run_in_scheduled_coroutine emptyConfigState
    "O1" "ESZ4" "CME" 1 true 0 0 0 0
  have h1 := submit_validations_run_in_scheduled_coroutine routeLessState
    "O1" "ESZ4" "CME" 1 true 0 0 0 0
  have h2 := submit_validations_run_in_scheduled_coroutine fullState
    "O1" "ESZ4" "CME" 1 true 0 0 0 0
  refine ⟨h0.1, (h0.2.2.2.2.2.2.2.2.2.1 rfl).1, ?_, ?_⟩
  · exact (h1.2.2.2.2.2.2.2.2.2.2.1 acctA1 [] [] rfl rfl rfl).1
  · exact h2.2.2.2.2.2.2.2.2.2.2.2.1 acctA1 [] [routeCME] routeCME [] rfl
      rfl rfl
